import Mathlib

/-!
Verification development for the moirai opaque-pointer handle and
trampoline-cast subsystem.

Shallow embedding conventions:
  * A C++ static type is represented by a type code `TypeId := Nat`.
    The runtime type identity token `typeinfo` compares equal exactly when
    the type codes are equal, so `TypeId` equality stands for
    `typeinfo == typeinfo`.  `typeName t` stands for the human readable
    name returned by `typeid(...).name()`.
  * A pointer is an address `Ptr := Nat`, with `0` standing for `nullptr`.
    `static_cast<U*>` applied to a `void*` keeps the address unchanged,
    which is what the C++ semantics gives; a derived-to-base
    `static_cast<T*>` applied to an `R*` may adjust the address under
    multiple or virtual inheritance, which the embedding keeps abstract as
    a function `TypeEnv.scast R T a`.
  * Functions that throw `std::invalid_argument` return
    `Except String _`, the error string being the thrown message.
-/

namespace moirai

abbrev TypeId := Nat

abbrev Ptr := Nat

/-- Human readable name of a type code, standing for `typeid(T).name()`.
Distinct type codes have distinct names. -/
def typeName (t : TypeId) : String := "type" ++ toString t

/-- Address translation performed by a compile-time `static_cast`:
`scast R T a` is the address produced by `static_cast<T*>` applied to an
`R*` holding address `a`.  It is kept abstract because the adjustment
depends on the class layouts involved. -/
structure TypeEnv where
  scast : TypeId → TypeId → Ptr → Ptr

/-- A table of declared candidate type lists: `decl U = some [R1, ..., Rn]`
models a user specialization of `known_conversions<U>` whose `dyn_cast`
body is `as_type<U, R1, ..., Rn>(p, tinfo)`; `decl U = none` models the
absence of a specialization, so the primary template applies. -/
def DeclTable := TypeId → Option (List TypeId)

/-- Embedding of the two `as_type` overloads.  The empty-list case is the
terminal `as_type<T>(p, tinfo)`: it compares `tinfo` with `typeid(T)` and
returns `static_cast<T*>(p)` (same address, cast from `void*`) on match,
`nullptr` otherwise.  The cons case is the variadic
`as_type<T, R, RArgs...>(p, tinfo)`: it compares `tinfo` with `typeid(R)`
and on match returns `static_cast<T*>(static_cast<R*>(p))`, on mismatch
recurses on the remaining candidates. -/
def as_type (env : TypeEnv) (T : TypeId) : List TypeId → Ptr → TypeId → Ptr
  | [], p, tinfo => if tinfo = T then p else 0
  | R :: rest, p, tinfo =>
      if tinfo = R then env.scast R T p else as_type env T rest p tinfo

/-- Embedding of `known_conversions<U>::dyn_cast(p, tinfo)`.  Without a
declared specialization the primary template runs: exact identity match
returns `static_cast<U*>(p)` (the address unchanged), otherwise
`nullptr`.  With a declared candidate list the specialization runs
`as_type` over that list. -/
def known_conversions.dyn_cast (env : TypeEnv) (decl : DeclTable)
    (U : TypeId) (p : Ptr) (tinfo : TypeId) : Ptr :=
  match decl U with
  | none => if U = tinfo then p else 0
  | some cands => as_type env U cands p tinfo

/-- The data of a `cast_ptr_provider` reachable from its interface: the
recorded runtime type identity `wrapped_type_info` and the address
returned by `get_void_ptr()`. -/
structure cast_ptr_provider where
  wrapped_type_info : TypeId
  void_ptr : Ptr
deriving DecidableEq

/-- Embedding of `cast_ptr_provider::dynamic_cast_to<U>()`: it calls
`known_conversions<U>::dyn_cast(get_void_ptr(), wrapped_type_info)`. -/
def cast_ptr_provider.dynamic_cast_to (env : TypeEnv) (decl : DeclTable)
    (U : TypeId) (c : cast_ptr_provider) : Ptr :=
  known_conversions.dyn_cast env decl U c.void_ptr c.wrapped_type_info

/-- Embedding of `cast_ptr_provider::can_cast_to<U>()`: it returns
`dynamic_cast_to<U>() != nullptr`. -/
def cast_ptr_provider.can_cast_to (env : TypeEnv) (decl : DeclTable)
    (U : TypeId) (c : cast_ptr_provider) : Bool :=
  cast_ptr_provider.dynamic_cast_to env decl U c != 0

/-- Modelled from the spec: the OwnershipBlock kept by the ownership
registry for one address.  `share` is the number of external references
(live reference handles) currently joined to the block; `dtor` records
the concrete type whose destructor the block is bound to, fixed when the
factory built the block. -/
structure Block where
  share : Nat
  dtor : TypeId
deriving DecidableEq

/-- Modelled from the spec: the state of the process-wide ownership
registry (`reference_handle_map`, declared in `reference_handle.h`,
which is not part of the sources here).  `entries` is the address to
OwnershipBlock map; `destroyed` is a ghost log recording, in order, each
run of an underlying destructor together with the concrete type it was
bound to. -/
structure RegState where
  entries : List (Ptr × Block)
  destroyed : List (Ptr × TypeId)
deriving DecidableEq

def RegState.empty : RegState := ⟨[], []⟩

/-- Lookup of the block stored for an address. -/
def rlookup (a : Ptr) : List (Ptr × Block) → Option Block
  | [] => none
  | (k, b) :: rest => if k = a then some b else rlookup a rest

/-- Replacement of the block stored for an address (first occurrence). -/
def rupdate (a : Ptr) (b : Block) : List (Ptr × Block) → List (Ptr × Block)
  | [] => []
  | (k, c) :: rest =>
      if k = a then (k, b) :: rest else (k, c) :: rupdate a b rest

/-- Removal of the entry stored for an address (first occurrence). -/
def rerase (a : Ptr) : List (Ptr × Block) → List (Ptr × Block)
  | [] => []
  | (k, c) :: rest => if k = a then rest else (k, c) :: rerase a rest

/-- Modelled from the spec: `reference_handle_map::get(address, factory)`
returns the existing OwnershipBlock for the address if present,
incrementing its share, and otherwise invokes the factory to build one,
binding the destructor of the concrete type, and inserts it with a
single external share. -/
def reference_handle_map.get (p : Ptr) (dtorType : TypeId)
    (st : RegState) : RegState :=
  match rlookup p st.entries with
  | some b => { st with entries := rupdate p ⟨b.share + 1, b.dtor⟩ st.entries }
  | none => { st with entries := (p, ⟨1, dtorType⟩) :: st.entries }

/-- Modelled from the spec: `reference_handle_map::release(address)`
decrements the share of the block for the address; when the share
reaches zero it erases the entry, at which point the last owner of the
shared block is gone and the destructor bound to the block runs, which
the ghost log records. -/
def reference_handle_map.release (p : Ptr) (st : RegState) : RegState :=
  match rlookup p st.entries with
  | some b =>
      if b.share ≤ 1 then
        { entries := rerase p st.entries
          destroyed := st.destroyed ++ [(p, b.dtor)] }
      else
        { st with entries := rupdate p ⟨b.share - 1, b.dtor⟩ st.entries }
  | none => st

/-- The data of a live `reference_handle<T>`: the wrapped static type `T`
and the address held by its member shared pointer. -/
structure Handle where
  wrappedT : TypeId
  addr : Ptr
deriving DecidableEq

/-- Embedding of `reference_handle<T>::get_ptr()`. -/
def reference_handle.get_ptr (h : Handle) : Ptr := h.addr

/-- Embedding of the adoption constructor `reference_handle<T>(T* p)`: a
null pointer is rejected with `std::invalid_argument`; otherwise
`find_shared_ptr(p)` resolves to get-or-create on the registry keyed by
the address, with the factory binding the destructor of `T`. -/
def reference_handle.mk_from_ptr (T : TypeId) (p : Ptr)
    (st : RegState) : Except String (Handle × RegState) :=
  if p = 0 then .error "Pointer must not be nullptr"
  else .ok (⟨T, p⟩, reference_handle_map.get p T st)

/-- Embedding of `reference_handle<T>::new_reference_handle()`: it
constructs a fresh handle from `get_ptr()` through the adoption
constructor. -/
def reference_handle.new_reference_handle (h : Handle)
    (st : RegState) : Except String (Handle × RegState) :=
  reference_handle.mk_from_ptr h.wrappedT (reference_handle.get_ptr h) st

/-- Embedding of the destructor `~reference_handle()`: it calls
`reference_handle_map::instance().release(get_ptr())`. -/
def reference_handle.destruct (h : Handle) (st : RegState) : RegState :=
  reference_handle_map.release (reference_handle.get_ptr h) st

/-- Modelled from the spec: the use count of the member shared pointer of
a handle.  The registry stores one bookkeeping copy of the shared block
per entry and every live handle holds one more, so while the entry is
present the count is the external share plus one. -/
def reference_handle.use_count (h : Handle) (st : RegState) : Nat :=
  match rlookup h.addr st.entries with
  | some b => b.share + 1
  | none => 0

/-- Embedding of `reference_handle<T>::count()`: it returns
`sharedPtr.use_count() - 1`. -/
def reference_handle.count (h : Handle) (st : RegState) : Int :=
  (reference_handle.use_count h st : Int) - 1

/-- A provider object as seen through an `opaque_ptr_provider*`, split by
dynamic class: a `reference_handle<T>` instance, some other concrete
`cast_ptr_provider` subclass, or a provider subclass without the cast
capability. -/
inductive Provider where
  | ref (h : Handle)
  | castable (c : cast_ptr_provider)
  | plain (tinfo : TypeId) (vp : Ptr)
deriving DecidableEq

/-- The recorded runtime type identity of a provider; a
`reference_handle<T>` records `typeid(T)` at construction. -/
def Provider.wrapped_type_info : Provider → TypeId
  | .ref h => h.wrappedT
  | .castable c => c.wrapped_type_info
  | .plain tinfo _ => tinfo

/-- Embedding of `get_void_ptr()`; for a `reference_handle` it is
`(void*)get_ptr()`. -/
def Provider.get_void_ptr : Provider → Ptr
  | .ref h => reference_handle.get_ptr h
  | .castable c => c.void_ptr
  | .plain _ vp => vp

/-- Embedding of `dynamic_cast<reference_handle<T>*>` applied to a
provider: it succeeds exactly when the dynamic class of the object is
`reference_handle<T>` for the requested `T`. -/
def Provider.toRef (T : TypeId) : Provider → Option Handle
  | .ref h => if h.wrappedT = T then some h else none
  | .castable _ => none
  | .plain _ _ => none

/-- Embedding of `dynamic_cast<cast_ptr_provider*>` applied to a
provider: it succeeds for every subclass with the cast capability, in
particular for every `reference_handle`, whose recorded identity and
void pointer it preserves. -/
def Provider.toCast : Provider → Option cast_ptr_provider
  | .ref h => some ⟨h.wrappedT, reference_handle.get_ptr h⟩
  | .castable c => some c
  | .plain _ _ => none

/-- Name of the class `reference_handle<T>` as produced by
`typeid(reference_handle<T>).name()`: it embeds the name of the wrapped
type `T`. -/
def refHandleClassName (T : TypeId) : String :=
  "reference_handle<" ++ typeName T ++ ">"

/-- Embedding of `checked_downcast<D>(sharedPtr)` at the instantiations
the library uses, where `D` is `reference_handle<T>`: a null argument is
rejected; then `dynamic_cast<D*>` runs, and on failure an
`std::invalid_argument` carries the expected class name and the recorded
type name. -/
def checked_downcast (T : TypeId)
    (sp : Option Provider) : Except String Handle :=
  match sp with
  | none => .error "The pointer to a reference handle is nullptr"
  | some prov =>
      match Provider.toRef T prov with
      | some h => .ok h
      | none =>
          .error ("Expected type " ++ refHandleClassName T ++
            ", but got an opaque pointer to a type " ++
            typeName prov.wrapped_type_info)

/-- Embedding of `checked_reference_handle<T>(sharedPtr)`: it is
`checked_downcast<reference_handle<T>>(sharedPtr)`. -/
def checked_reference_handle (T : TypeId)
    (sp : Option Provider) : Except String Handle :=
  checked_downcast T sp

/-- Embedding of `as_raw_pointers<T>(sharedPtrs, n)` with `n` the length
of the list: each slot receives `(T*)sharedPtrs[i]->get_void_ptr()`, a
plain cast that keeps the address and checks nothing. -/
def as_raw_pointers (T : TypeId) (provs : List Provider) : List Ptr :=
  provs.map Provider.get_void_ptr

/-- Embedding of `as_raw_pointer<T>(sharedPtr)`: a null argument is
rejected; a provider that is exactly a `reference_handle<T>` answers
`get_ptr()`; otherwise the provider must support the cast capability and
the trampoline cast `dynamic_cast_to<T>()` runs, a null result being
turned into an `std::invalid_argument` naming the recorded type and the
requested type. -/
def as_raw_pointer (env : TypeEnv) (decl : DeclTable) (T : TypeId)
    (sp : Option Provider) : Except String Ptr :=
  match sp with
  | none => .error "Pointer is nullptr - not accepted by the API"
  | some prov =>
      match Provider.toRef T prov with
      | some h => .ok (reference_handle.get_ptr h)
      | none =>
          match Provider.toCast prov with
          | none =>
              .error
                "Opaque pointer wrapper is not a cast_ptr_provider - not accepted by the API"
          | some c =>
              if cast_ptr_provider.dynamic_cast_to env decl T c = 0 then
                .error ("Cannot cast pointer to " ++
                  typeName prov.wrapped_type_info ++
                  " to a pointer to " ++ typeName T)
              else .ok (cast_ptr_provider.dynamic_cast_to env decl T c)

/-- A message names a string when the string occurs in it verbatim. -/
def mentions (msg s : String) : Prop := ∃ a b, msg = a ++ s ++ b

/-- A concrete type environment with no pointer adjustment, usable as a
witness instance. -/
def envId : TypeEnv := ⟨fun _ _ p => p⟩

/-- A concrete type environment with a visible pointer adjustment,
usable as a witness instance. -/
def envAdj : TypeEnv := ⟨fun R T p => p + 100 * R + 10 * T⟩

/-- A concrete declaration table with no specialization at all. -/
def declNone : DeclTable := fun _ => none

/-- C10: for every cast-capable provider and every target type, the
boolean query `can_cast_to<U>()` answers true exactly when
`dynamic_cast_to<U>()` returns a non-null pointer. -/
theorem can_cast_to_iff_dynamic_cast_to (env : TypeEnv) (decl : DeclTable)
    (U : TypeId) (c : cast_ptr_provider) :
    cast_ptr_provider.can_cast_to env decl U c = true ↔
      cast_ptr_provider.dynamic_cast_to env decl U c ≠ 0 := by
  simp [cast_ptr_provider.can_cast_to]

/-- C3: for a target type with no declared candidate-list
specialization, `dynamic_cast_to<U>()` returns a non-null pointer
exactly when the recorded type identity of the provider equals the
identity of `U`; in particular no unconditional reinterpretation of the
stored pointer happens on an identity mismatch. -/
theorem default_dynamic_cast_to_iff (env : TypeEnv) (decl : DeclTable)
    (U : TypeId) (c : cast_ptr_provider)
    (hdecl : decl U = none) (hp : c.void_ptr ≠ 0) :
    cast_ptr_provider.dynamic_cast_to env decl U c ≠ 0 ↔
      c.wrapped_type_info = U := by
  rcases eq_or_ne U c.wrapped_type_info with h | h
  · subst h
    simp [cast_ptr_provider.dynamic_cast_to, known_conversions.dyn_cast,
      hdecl, hp]
  · simp [cast_ptr_provider.dynamic_cast_to, known_conversions.dyn_cast,
      hdecl, h, Ne.symm h]

/-- Witness for C3 at a concrete provider with matching identity. -/
theorem default_dynamic_cast_to_iff_witness :
    declNone 2 = none ∧
    (⟨2, 5⟩ : cast_ptr_provider).void_ptr ≠ 0 ∧
    (cast_ptr_provider.dynamic_cast_to envId declNone 2 ⟨2, 5⟩ ≠ 0 ↔
      (⟨2, 5⟩ : cast_ptr_provider).wrapped_type_info = 2) :=
  ⟨rfl, by decide,
    default_dynamic_cast_to_iff envId declNone 2 ⟨2, 5⟩ rfl (by decide)⟩

/-- C6: the trampoline walks a declared candidate list from left to
right; at the first candidate equal to the recorded identity it returns
the stored pointer cast through that candidate type and then to the
target type, candidates before the match having been compared and
skipped. -/
theorem as_type_first_match (env : TypeEnv) (T p tinfo R : TypeId)
    (pre post : List TypeId)
    (hR : tinfo = R) (hpre : ∀ S ∈ pre, tinfo ≠ S) :
    as_type env T (pre ++ R :: post) p tinfo = env.scast R T p := by
  induction pre with
  | nil => simp [as_type, hR]
  | cons S rest ih =>
      have hS : tinfo ≠ S := hpre S (by simp)
      rw [List.cons_append]
      simp only [as_type, if_neg hS]
      exact ih (fun S2 hS2 => hpre S2 (by simp [hS2]))

/-- Witness for C6 at a concrete list with an earlier non-matching
candidate, under an environment with a visible pointer adjustment. -/
theorem as_type_first_match_witness :
    (5 : TypeId) = 5 ∧ (∀ S ∈ [(3 : TypeId)], (5 : TypeId) ≠ S) ∧
    as_type envAdj 1 ([3] ++ 5 :: [7]) 4 5 = envAdj.scast 5 1 4 :=
  ⟨rfl, by decide, as_type_first_match envAdj 1 4 5 5 [3] [7] rfl (by decide)⟩

/-- C9: the batch helper returns one pointer per provider, the i-th
entry being exactly the untyped pointer of the i-th provider, and the
result does not depend on the requested type at all, so no per-element
type check happens. -/
theorem as_raw_pointers_elements (T : TypeId) (provs : List Provider)
    (i : Nat) (hi : i < provs.length) :
    (as_raw_pointers T provs).length = provs.length ∧
    (as_raw_pointers T provs)[i]? =
      some (Provider.get_void_ptr (provs.get ⟨i, hi⟩)) ∧
    ∀ T2 : TypeId, as_raw_pointers T provs = as_raw_pointers T2 provs := by
  refine ⟨by simp [as_raw_pointers], ?_, fun T2 => rfl⟩
  simp [as_raw_pointers, List.getElem?_eq_getElem hi]

/-- Witness for C9 at a concrete two-element provider array. -/
theorem as_raw_pointers_elements_witness :
    (1 : Nat) < [Provider.plain 1 9, Provider.castable ⟨2, 8⟩].length ∧
    (as_raw_pointers 0 [Provider.plain 1 9, Provider.castable ⟨2, 8⟩])[1]? =
      some (Provider.get_void_ptr
        ([Provider.plain 1 9, Provider.castable ⟨2, 8⟩].get ⟨1, by decide⟩)) :=
  ⟨by decide,
    (as_raw_pointers_elements 0 [Provider.plain 1 9, Provider.castable ⟨2, 8⟩]
      1 (by decide)).2.1⟩

/-- C5: when the provider is exactly a `reference_handle<T>`, the
marshalling helper `as_raw_pointer<T>` succeeds with the same pointer as
`get_ptr()`. -/
theorem as_raw_pointer_exact_handle (env : TypeEnv) (decl : DeclTable)
    (T : TypeId) (prov : Provider) (h : Handle)
    (href : Provider.toRef T prov = some h) :
    as_raw_pointer env decl T (some prov) =
      .ok (reference_handle.get_ptr h) := by
  simp [as_raw_pointer, href]

/-- Witness for C5 at a concrete handle. -/
theorem as_raw_pointer_exact_handle_witness :
    Provider.toRef 3 (Provider.ref ⟨3, 7⟩) = some ⟨3, 7⟩ ∧
    as_raw_pointer envId declNone 3 (some (Provider.ref ⟨3, 7⟩)) =
      .ok (reference_handle.get_ptr ⟨3, 7⟩) :=
  ⟨by decide,
    as_raw_pointer_exact_handle envId declNone 3 (Provider.ref ⟨3, 7⟩)
      ⟨3, 7⟩ (by decide)⟩

/-- C4: on a non-null provider that is not exactly a
`reference_handle<T>`, the helper demands the cast capability, rejecting
a provider without it; with the capability it performs the trampoline
cast, and when that cast yields no conversion it fails with an
invalid-argument message naming both the requested type and the recorded
type. -/
theorem as_raw_pointer_trampoline_path (env : TypeEnv) (decl : DeclTable)
    (T : TypeId) (prov : Provider)
    (hnotref : Provider.toRef T prov = none) :
    (Provider.toCast prov = none →
      as_raw_pointer env decl T (some prov) =
        .error "Opaque pointer wrapper is not a cast_ptr_provider - not accepted by the API") ∧
    (∀ c, Provider.toCast prov = some c →
      cast_ptr_provider.dynamic_cast_to env decl T c ≠ 0 →
      as_raw_pointer env decl T (some prov) =
        .ok (cast_ptr_provider.dynamic_cast_to env decl T c)) ∧
    (∀ c, Provider.toCast prov = some c →
      cast_ptr_provider.dynamic_cast_to env decl T c = 0 →
      as_raw_pointer env decl T (some prov) =
        .error ("Cannot cast pointer to " ++ typeName prov.wrapped_type_info ++
          " to a pointer to " ++ typeName T) ∧
      mentions ("Cannot cast pointer to " ++ typeName prov.wrapped_type_info ++
          " to a pointer to " ++ typeName T) (typeName T) ∧
      mentions ("Cannot cast pointer to " ++ typeName prov.wrapped_type_info ++
          " to a pointer to " ++ typeName T) (typeName prov.wrapped_type_info)) := by
  refine ⟨fun hc => by simp [as_raw_pointer, hnotref, hc], ?_, ?_⟩
  · intro c hc hnz
    simp [as_raw_pointer, hnotref, hc, hnz]
  · intro c hc hz
    refine ⟨by simp [as_raw_pointer, hnotref, hc, hz], ?_, ?_⟩
    · exact ⟨"Cannot cast pointer to " ++ typeName prov.wrapped_type_info ++
        " to a pointer to ", "", by simp [String.append_assoc]⟩
    · exact ⟨"Cannot cast pointer to ",
        " to a pointer to " ++ typeName T, by simp [String.append_assoc]⟩

/-- Witness for C4 at a concrete cast-capable provider whose recorded
type has no conversion to the requested type. -/
theorem as_raw_pointer_trampoline_path_witness :
    Provider.toRef 0 (Provider.castable ⟨1, 5⟩) = none ∧
    Provider.toCast (Provider.castable ⟨1, 5⟩) = some ⟨1, 5⟩ ∧
    cast_ptr_provider.dynamic_cast_to envId declNone 0 ⟨1, 5⟩ = 0 ∧
    as_raw_pointer envId declNone 0 (some (Provider.castable ⟨1, 5⟩)) =
      .error ("Cannot cast pointer to " ++ typeName 1 ++
        " to a pointer to " ++ typeName 0) :=
  ⟨rfl, rfl, rfl,
    ((as_raw_pointer_trampoline_path envId declNone 0
      (Provider.castable ⟨1, 5⟩) rfl).2.2 ⟨1, 5⟩ rfl rfl).1⟩

/-- C7: on a handle wrapping a type different from the requested one,
`checked_downcast` fails with a message naming both the requested type
and the recorded type; on a handle wrapping exactly the requested type
it succeeds with the very same handle, hence the same object. -/
theorem checked_downcast_spec (T U : TypeId) (a : Ptr) (hne : U ≠ T) :
    (∃ msg, checked_downcast T (some (Provider.ref ⟨U, a⟩)) = .error msg ∧
      mentions msg (typeName T) ∧ mentions msg (typeName U)) ∧
    checked_downcast T (some (Provider.ref ⟨T, a⟩)) = .ok ⟨T, a⟩ := by
  constructor
  · refine ⟨"Expected type " ++ refHandleClassName T ++
      ", but got an opaque pointer to a type " ++ typeName U, ?_, ?_, ?_⟩
    · simp [checked_downcast, Provider.toRef, hne, Provider.wrapped_type_info]
    · exact ⟨"Expected type " ++ "reference_handle<",
        ">" ++ (", but got an opaque pointer to a type " ++ typeName U),
        by simp only [refHandleClassName, String.append_assoc]⟩
    · exact ⟨"Expected type " ++ refHandleClassName T ++
        ", but got an opaque pointer to a type ", "",
        by simp [String.append_assoc]⟩
  · simp [checked_downcast, Provider.toRef]

/-- Witness for C7 at concrete distinct types. -/
theorem checked_downcast_spec_witness :
    (1 : TypeId) ≠ 0 ∧
    checked_downcast 0 (some (Provider.ref ⟨0, 3⟩)) = .ok ⟨0, 3⟩ :=
  ⟨by decide, (checked_downcast_spec 0 1 3 (by decide)).2⟩

/-- C8: a null raw pointer is rejected by the adoption constructor, and
a null provider is rejected by `as_raw_pointer`, `checked_downcast` and
`checked_reference_handle`, each with an invalid-argument fault. -/
theorem null_arguments_rejected (env : TypeEnv) (decl : DeclTable)
    (T D : TypeId) (st : RegState) :
    reference_handle.mk_from_ptr T 0 st = .error "Pointer must not be nullptr" ∧
    as_raw_pointer env decl T none =
      .error "Pointer is nullptr - not accepted by the API" ∧
    checked_downcast D none =
      .error "The pointer to a reference handle is nullptr" ∧
    checked_reference_handle D none =
      .error "The pointer to a reference handle is nullptr" :=
  ⟨rfl, rfl, rfl, rfl⟩

/-- C1: starting from a registry with no entry for an address, adopting
the address twice (two independent handles, each creation resolving to
get-or-create) and then destroying both handles runs the destructor
bound to the wrapped type exactly once, at the second destruction, and
leaves the registry without an entry for the address. -/
theorem two_handles_single_destruction (T : TypeId) (p : Ptr)
    (st : RegState) (hp : p ≠ 0) (hfresh : rlookup p st.entries = none) :
    reference_handle.mk_from_ptr T p st =
      .ok (⟨T, p⟩, reference_handle_map.get p T st) ∧
    (reference_handle.destruct ⟨T, p⟩
      (reference_handle_map.get p T (reference_handle_map.get p T st))).destroyed
        = st.destroyed ∧
    (reference_handle.destruct ⟨T, p⟩ (reference_handle.destruct ⟨T, p⟩
      (reference_handle_map.get p T (reference_handle_map.get p T st)))).destroyed
        = st.destroyed ++ [(p, T)] ∧
    rlookup p (reference_handle.destruct ⟨T, p⟩ (reference_handle.destruct ⟨T, p⟩
      (reference_handle_map.get p T
        (reference_handle_map.get p T st)))).entries = none := by
  refine ⟨by simp [reference_handle.mk_from_ptr, hp], ?_, ?_, ?_⟩ <;>
    simp [reference_handle_map.get, reference_handle_map.release,
      reference_handle.destruct, reference_handle.get_ptr,
      rlookup, rupdate, rerase, hfresh]

/-- Witness for C1 at a concrete address and an empty registry. -/
theorem two_handles_single_destruction_witness :
    (1 : Ptr) ≠ 0 ∧ rlookup 1 RegState.empty.entries = none ∧
    (reference_handle.destruct ⟨0, 1⟩ (reference_handle.destruct ⟨0, 1⟩
      (reference_handle_map.get 1 0
        (reference_handle_map.get 1 0 RegState.empty)))).destroyed
      = RegState.empty.destroyed ++ [(1, 0)] :=
  ⟨by decide, rfl,
    (two_handles_single_destruction 0 1 RegState.empty (by decide) rfl).2.2.1⟩

/-- C2 counterexample: a single freshly adopted handle with no aliases
reports a count of 1, not 0, because the reported count is the use count
of the shared block (registry bookkeeping copy plus one handle) minus
one. -/
theorem single_handle_count_one_counterexample :
    reference_handle.mk_from_ptr 0 1 RegState.empty =
      .ok (⟨0, 1⟩, reference_handle_map.get 1 0 RegState.empty) ∧
    reference_handle.count ⟨0, 1⟩
      (reference_handle_map.get 1 0 RegState.empty) = 1 ∧
    ¬ (reference_handle.count ⟨0, 1⟩
      (reference_handle_map.get 1 0 RegState.empty) = 0) :=
  ⟨rfl, by decide, by decide⟩

/-- C2 amended: with a single live handle and no aliases the reported
count is 1; after `new_reference_handle()` both handles report 2; after
destroying the second handle the count is back to 1.  The reported count
equals the number of live handles: total holders of the shared block
minus the bookkeeping reference of the registry. -/
theorem count_counts_live_handles (T : TypeId) (p : Ptr) (st : RegState)
    (hp : p ≠ 0) (hfresh : rlookup p st.entries = none) :
    reference_handle.count ⟨T, p⟩ (reference_handle_map.get p T st) = 1 ∧
    reference_handle.new_reference_handle ⟨T, p⟩
      (reference_handle_map.get p T st) =
        .ok (⟨T, p⟩, reference_handle_map.get p T
          (reference_handle_map.get p T st)) ∧
    reference_handle.count ⟨T, p⟩
      (reference_handle_map.get p T (reference_handle_map.get p T st)) = 2 ∧
    reference_handle.count ⟨T, p⟩ (reference_handle.destruct ⟨T, p⟩
      (reference_handle_map.get p T (reference_handle_map.get p T st))) = 1 := by
  refine ⟨?_, ?_, ?_, ?_⟩ <;>
    simp [reference_handle_map.get, reference_handle_map.release,
      reference_handle.destruct, reference_handle.get_ptr,
      reference_handle.count, reference_handle.use_count,
      reference_handle.new_reference_handle, reference_handle.mk_from_ptr,
      rlookup, rupdate, rerase, hfresh, hp]

/-- Witness for the amended C2 at a concrete address and an empty
registry. -/
theorem count_counts_live_handles_witness :
    (1 : Ptr) ≠ 0 ∧ rlookup 1 RegState.empty.entries = none ∧
    reference_handle.count ⟨0, 1⟩
      (reference_handle_map.get 1 0
        (reference_handle_map.get 1 0 RegState.empty)) = 2 :=
  ⟨by decide, rfl,
    (count_counts_live_handles 0 1 RegState.empty (by decide) rfl).2.2.1⟩

end moirai
